import Mathlib

/-!
Verification of the hybrid retrieval orchestration subsystem of
`mcampa/claude-context` (package `@mcampa/ai-deno-search`).

The TypeScript sources are shallowly embedded as pure Lean functions:
* remote I/O (Milvus REST calls, embedding-provider calls) is modelled by an
  explicit environment of oracles (`SearchEnv`) plus a trace of issued calls
  (`CallEvent` / `MilvusCall`), so that "which remote calls were made" is a
  value the theorems can talk about;
* JavaScript floats are modelled by `ℚ` (no rounding is at play in any claim);
* JavaScript falsy defaults (`a || b`) are modelled explicitly (`jsOrQ`,
  `jsOrNat`, ...);
* `async`/`try`/`catch` become `Except String`-valued results, with a swallowed
  exception (a `catch` whose body only logs) modelled by discarding the
  `Except` value, exactly as the source continues past the `catch`.
-/

/-! ## Shared data model (src/packages/ai-deno-search/src/types.ts and
vectordb types) -/

/-- Metadata maps (`Record<string, any>` restricted to the string entries the
search path reads) are modelled as association lists. -/
abbrev Meta := List (String × String)

/-- `EmbeddingVector` from `embedding/base-embedding.ts`. -/
structure EmbeddingVector where
  vector : List ℚ
  dimension : ℕ
deriving Repr, DecidableEq

/-- `VectorDocument` from the vectordb types. -/
structure VectorDocument where
  id : String
  vector : List ℚ
  content : String
  relativePath : String
  startLine : ℤ
  endLine : ℤ
  fileExtension : String
  metadata : Meta
deriving Repr, DecidableEq

/-- `VectorSearchResult` (and the identically shaped `HybridSearchResult`). -/
structure VectorSearchResult where
  document : VectorDocument
  score : ℚ
deriving Repr, DecidableEq

/-- `HybridSearchResult` has the same fields as `VectorSearchResult`. -/
abbrev HybridSearchResult := VectorSearchResult

/-- `SemanticSearchResult`, the public result shape (types.ts lines 2-9). -/
structure SemanticSearchResult where
  content : String
  relativePath : String
  startLine : ℤ
  endLine : ℤ
  language : String
  score : ℚ
deriving Repr, DecidableEq

/-- `SearchOptions` for plain search: `{ topK, threshold, filterExpr? }`. -/
structure SearchOptions where
  topK : ℕ
  threshold : ℚ
  filterExpr : Option String
deriving Repr, DecidableEq

/-- The payload of a hybrid-search channel request built by
`SearchContext.semanticSearch`: dense channels carry a vector, the lexical
channel carries the raw query text. -/
inductive SearchData where
  | dense (v : List ℚ)
  | text (s : String)
deriving Repr, DecidableEq

/-- `HybridSearchRequest` (one per channel). -/
structure HybridSearchRequest where
  data : SearchData
  anns_field : String
  param : List (String × ℚ)
  limit : ℕ
deriving Repr, DecidableEq

/-- `RerankStrategy`: the `{ strategy: "rrf", params: { k } }` block, with the
single parameter `k` flattened into a field. -/
structure RerankStrategy where
  strategy : String
  k : ℚ
deriving Repr, DecidableEq

/-- `HybridSearchOptions`: `{ rerank, limit, filterExpr? }`. -/
structure HybridSearchOptions where
  rerank : RerankStrategy
  limit : ℕ
  filterExpr : Option String
deriving Repr, DecidableEq

/-! ## JavaScript falsy-default helpers (`a || b`) -/

/-- `a || b` for an optional number: `undefined` and `0` are falsy. -/
def jsOrQ (a : Option ℚ) (b : ℚ) : ℚ :=
  match a with
  | none => b
  | some x => if x = 0 then b else x

/-- `a || b` for an optional integer: `undefined` and `0` are falsy. -/
def jsOrInt (a : Option ℤ) (b : ℤ) : ℤ :=
  match a with
  | none => b
  | some x => if x = 0 then b else x

/-- `a || b` for a natural number: `0` is falsy. -/
def jsOrNat (a : ℕ) (b : ℕ) : ℕ :=
  if a = 0 then b else a

/-- `a || b` for an optional string: `undefined` and `""` are falsy. -/
def jsOrStr (a : Option String) (b : String) : String :=
  match a with
  | none => b
  | some s => if s = "" then b else s

/-! ## SearchContext (src/packages/ai-deno-search/src/search-context.ts,
shipped in types.ts lines 28-260 of the concatenated source) -/

/-- The two fields of `SearchContext` the search path reads.  The
embedding-provider and vector-database members become the `SearchEnv`
oracle below. -/
structure SearchContextModel where
  name : String
  hybridMode : Bool
deriving Repr, DecidableEq

/-- `SearchContext.getCollectionName` (types.ts lines 74-77):
`` `${prefix}_${this.name}` `` with the prefix chosen by the hybrid flag. -/
def getCollectionName (ctx : SearchContextModel) : String :=
  (if ctx.hybridMode then "hybrid_code_chunks" else "code_chunks") ++ "_" ++ ctx.name

/-- One remote call issued by the orchestrator, for stating frame properties. -/
inductive CallEvent where
  | hasCollectionCall (name : String)
  | queryCall (name : String)
  | embedCall (text : String)
  | hybridSearchCall (name : String)
  | searchCall (name : String)
deriving Repr, DecidableEq

/-- The oracles standing for `this.embedding` and `this.vectorDatabase`:
each remote operation either returns a value or raises (`Except`). -/
structure SearchEnv where
  hasCollection : String → Except String Bool
  queryStats : String → Except String (List Meta)
  embed : String → Except String EmbeddingVector
  hybridSearch : String → List HybridSearchRequest → HybridSearchOptions →
    Except String (List HybridSearchResult)
  search : String → List ℚ → SearchOptions → Except String (List VectorSearchResult)

/-- `String(result.document.metadata.language || "unknown")`: the language is
resolved from the metadata map, with `undefined` and `""` falsy. -/
def resolveLanguage (metadata : Meta) : String :=
  jsOrStr (metadata.lookup "language") "unknown"

/-- The result-mapping lambda shared by both branches of `semanticSearch`
(types.ts lines 173-180 and 208-215). -/
def toSemanticResult (r : VectorSearchResult) : SemanticSearchResult :=
  { content := r.document.content
    relativePath := r.document.relativePath
    startLine := r.document.startLine
    endLine := r.document.endLine
    language := resolveLanguage r.document.metadata
    score := r.score }

/-- The two `HybridSearchRequest`s built at types.ts lines 139-152: dense
channel on field `"vector"` with the query embedding, lexical channel on
`"sparse_vector"` with the raw query text. -/
def hybridRequests (queryVector : List ℚ) (query : String) (topK : ℕ) :
    List HybridSearchRequest :=
  [ { data := .dense queryVector
      anns_field := "vector"
      param := [("nprobe", 10)]
      limit := topK }
  , { data := .text query
      anns_field := "sparse_vector"
      param := [("drop_ratio_search", 1/5)]
      limit := topK } ]

/-- The `HybridSearchOptions` passed to `vectorDatabase.hybridSearch` at
types.ts lines 159-166: RRF rerank with `k = 100`. -/
def hybridOptionsOf (topK : ℕ) (filterExpr : Option String) : HybridSearchOptions :=
  { rerank := { strategy := "rrf", k := 100 }
    limit := topK
    filterExpr := filterExpr }

/-- `SearchContext.semanticSearch` (types.ts lines 87-222) as a pure function
of the oracle environment.  Returns the outcome together with the trace of
remote calls issued.  The hybrid branch's preliminary collection-stats
`query` is issued inside `try { ... } catch { log }`, so its outcome is
discarded and execution continues either way — exactly as in the source. -/
def semanticSearchBody (ctx : SearchContextModel) (env : SearchEnv) (query : String)
    (topK : ℕ) (threshold : ℚ) (filterExpr : Option String) (collectionName : String) :
    Except String (List SemanticSearchResult) × List CallEvent :=
  match env.hasCollection collectionName with
  | .error e => (.error e, [])
  | .ok false => (.ok [], [])
  | .ok true =>
    if ctx.hybridMode then
      -- the stats query: result and failure both discarded (try/catch that
      -- only logs), but the remote call is issued
      match env.embed query with
      | .error e =>
        (.error e, [.queryCall collectionName, .embedCall query])
      | .ok queryEmbedding =>
        match env.hybridSearch collectionName
            (hybridRequests queryEmbedding.vector query topK)
            (hybridOptionsOf topK filterExpr) with
        | .error e =>
          (.error e,
            [.queryCall collectionName, .embedCall query,
             .hybridSearchCall collectionName])
        | .ok searchResults =>
          (.ok (searchResults.map toSemanticResult),
            [.queryCall collectionName, .embedCall query,
             .hybridSearchCall collectionName])
    else
      match env.embed query with
      | .error e => (.error e, [.embedCall query])
      | .ok queryEmbedding =>
        match env.search collectionName queryEmbedding.vector
            { topK := topK, threshold := threshold, filterExpr := filterExpr } with
        | .error e => (.error e, [.embedCall query, .searchCall collectionName])
        | .ok searchResults =>
          (.ok (searchResults.map toSemanticResult),
            [.embedCall query, .searchCall collectionName])

/-- The whole of `semanticSearch`: derive the collection name, then run the
body; the `hasCollection` probe is always the first issued call. -/
def semanticSearch (ctx : SearchContextModel) (env : SearchEnv) (query : String)
    (topK : ℕ) (threshold : ℚ) (filterExpr : Option String) :
    Except String (List SemanticSearchResult) × List CallEvent :=
  ((semanticSearchBody ctx env query topK threshold filterExpr (getCollectionName ctx)).1,
   .hasCollectionCall (getCollectionName ctx) ::
     (semanticSearchBody ctx env query topK threshold filterExpr (getCollectionName ctx)).2)

/-- `SearchContext.hasIndex` (types.ts lines 228-231). -/
def hasIndex (ctx : SearchContextModel) (env : SearchEnv) : Except String Bool :=
  env.hasCollection (getCollectionName ctx)

/-- `true` exactly on embedding and store-search calls (embed, search,
hybridSearch) — the calls claim C1 says must not happen. -/
def CallEvent.isEmbedOrSearch : CallEvent → Bool
  | .embedCall _ => true
  | .searchCall _ => true
  | .hybridSearchCall _ => true
  | _ => false

/-! ## Claim C1 -/

/-- C1: for every query, if the store reports the derived collection absent
(`hasCollection` returns `false`), `semanticSearch` returns `.ok []` — a
success, not an error — and the issued-call trace contains no embedding,
search or hybrid-search call (it is the single `hasCollection` probe). -/
theorem semanticSearch_empty_when_no_collection
    (ctx : SearchContextModel) (env : SearchEnv) (query : String)
    (topK : ℕ) (threshold : ℚ) (filterExpr : Option String)
    (h : env.hasCollection (getCollectionName ctx) = .ok false) :
    (semanticSearch ctx env query topK threshold filterExpr).1 = .ok [] ∧
    (semanticSearch ctx env query topK threshold filterExpr).2 =
      [.hasCollectionCall (getCollectionName ctx)] ∧
    ∀ c ∈ (semanticSearch ctx env query topK threshold filterExpr).2,
      c.isEmbedOrSearch = false := by
  simp only [semanticSearch, semanticSearchBody, h]
  refine ⟨trivial, trivial, ?_⟩
  intro c hc
  simp only [List.mem_cons, List.not_mem_nil, or_false] at hc
  subst hc
  rfl

/-- Witness for C1 at a concrete context and environment. -/
theorem semanticSearch_empty_when_no_collection_witness :
    (semanticSearch ⟨"proj", true⟩
      ⟨fun _ => .ok false, fun _ => .ok [], fun _ => .ok ⟨[1], 1⟩,
        fun _ _ _ => .ok [], fun _ _ _ => .ok []⟩
      "q" 5 (1/2) none).1 = .ok [] :=
  (semanticSearch_empty_when_no_collection ⟨"proj", true⟩
    ⟨fun _ => .ok false, fun _ => .ok [], fun _ => .ok ⟨[1], 1⟩,
      fun _ _ _ => .ok [], fun _ _ _ => .ok []⟩
    "q" 5 (1/2) none rfl).1

/-! ## Claim C9 -/

/-- C9: the collection name is a pure function of the context name and the
hybrid flag — `"hybrid_code_chunks_proj"` / `"code_chunks_proj"` for context
`"proj"` — and both `semanticSearch` and `hasIndex` query exactly the name
`getCollectionName` yields for the same instance. -/
theorem collection_name_deterministic :
    getCollectionName ⟨"proj", true⟩ = "hybrid_code_chunks_proj" ∧
    getCollectionName ⟨"proj", false⟩ = "code_chunks_proj" ∧
    (∀ (ctx : SearchContextModel) (env : SearchEnv),
      hasIndex ctx env = env.hasCollection (getCollectionName ctx)) ∧
    (∀ (ctx : SearchContextModel) (env : SearchEnv) (query : String)
      (topK : ℕ) (threshold : ℚ) (filterExpr : Option String),
      (semanticSearch ctx env query topK threshold filterExpr).2.head? =
        some (.hasCollectionCall (getCollectionName ctx))) := by
  refine ⟨by decide, by decide, fun ctx env => rfl,
    fun ctx env query topK threshold filterExpr => rfl⟩

/-! ## MilvusRestfulVectorDatabase: load-state handling
(src/unnamed/part_003, `ensureLoaded` at lines 116-142) -/

/-- The remote calls `ensureLoaded` can issue. -/
inductive MilvusCall where
  | getLoadStateCall (name : String)
  | loadCall (name : String)
deriving Repr, DecidableEq

/-- `true` exactly on `collections/load` calls. -/
def MilvusCall.isLoad : MilvusCall → Bool
  | .loadCall _ => true
  | _ => false

/-- `MilvusRestfulVectorDatabase.ensureLoaded`: read
`collections/get_load_state`; when the reported `loadState` is not
`"LoadStateLoaded"` (including a missing field), issue `collections/load`.
The argument is the (optional) `loadState` string of the response. -/
def ensureLoaded (collectionName : String) (loadStateResp : Option String) :
    List MilvusCall :=
  if loadStateResp = some "LoadStateLoaded" then
    [.getLoadStateCall collectionName]
  else
    [.getLoadStateCall collectionName, .loadCall collectionName]

/-- The client-observed load state of a collection (spec §3). -/
inductive LoadState where
  | unloaded
  | loaded
deriving Repr, DecidableEq

/-- The store's `get_load_state` response for each state. -/
def loadStateResponse : LoadState → Option String
  | .loaded => some "LoadStateLoaded"
  | .unloaded => some "LoadStateNotLoad"

/-- One `ensureLoaded` invocation against a store in state `st`: the issued
calls, and the state afterwards (a `load` call moves the collection to
`Loaded`; nothing else changes it). -/
def ensureLoadedStep (collectionName : String) (st : LoadState) :
    List MilvusCall × LoadState :=
  let calls := ensureLoaded collectionName (loadStateResponse st)
  (calls, if calls.any MilvusCall.isLoad then .loaded else st)

/-- Two successive `ensureLoaded` invocations: concatenated call trace. -/
def ensureLoadedTwice (collectionName : String) (st : LoadState) : List MilvusCall :=
  (ensureLoadedStep collectionName st).1 ++
    (ensureLoadedStep collectionName (ensureLoadedStep collectionName st).2).1

/-- Number of underlying `load` calls in a trace. -/
def loadCallCount (calls : List MilvusCall) : ℕ :=
  (calls.filter MilvusCall.isLoad).length

/-! ## Claim C3 -/

/-- C3: `ensureLoaded` first reads the collection's load state (the
`get_load_state` call heads every trace), issues `load` exactly when the
reported state is not `Loaded`, and is idempotent: on an already-`Loaded`
collection a repeated invocation never re-issues `load` — two successive
invocations issue `0` underlying `load` calls, within the spec's bound of
one — and from any starting state two successive invocations issue at most
one `load`. -/
theorem ensureLoaded_idempotent (name : String) (st : LoadState)
    (resp : Option String) (h : resp ≠ some "LoadStateLoaded") :
    (ensureLoaded name resp).head? = some (.getLoadStateCall name) ∧
    ensureLoaded name (some "LoadStateLoaded") = [.getLoadStateCall name] ∧
    ensureLoaded name resp = [.getLoadStateCall name, .loadCall name] ∧
    loadCallCount (ensureLoadedTwice name .loaded) = 0 ∧
    loadCallCount (ensureLoadedTwice name st) ≤ 1 := by
  refine ⟨?_, by simp [ensureLoaded], by simp [ensureLoaded, h], by rfl, ?_⟩
  · unfold ensureLoaded
    split <;> rfl
  · cases st
    · exact le_of_eq rfl
    · exact Nat.zero_le 1

/-- Witness for C3 at a concrete collection and response. -/
theorem ensureLoaded_idempotent_witness :
    ensureLoaded "code_chunks_proj" (some "LoadStateNotLoad") =
      [.getLoadStateCall "code_chunks_proj", .loadCall "code_chunks_proj"] ∧
    loadCallCount (ensureLoadedTwice "code_chunks_proj" .loaded) = 0 :=
  ⟨(ensureLoaded_idempotent "code_chunks_proj" .loaded
      (some "LoadStateNotLoad") (by decide)).2.2.1,
   (ensureLoaded_idempotent "code_chunks_proj" .loaded
      (some "LoadStateNotLoad") (by decide)).2.2.2.1⟩

/-! ## MilvusRestfulVectorDatabase: issued wire requests
(src/unnamed/part_003, `search` at lines 415-501, `hybridSearch` at
lines 748-861) -/

/-- `searchParams` block of the plain-search payload. -/
structure MilvusSearchParams where
  metricType : String
  params : List (String × ℚ)
deriving Repr, DecidableEq

/-- The `entities/search` payload built by
`MilvusRestfulVectorDatabase.search`. -/
structure MilvusSearchRequest where
  collectionName : String
  dbName : Option String
  data : List (List ℚ)
  annsField : String
  limit : ℕ
  outputFields : List String
  searchParams : MilvusSearchParams
  filter : Option String
deriving Repr, DecidableEq

/-- The `filter` field is set only when `filterExpr` is present and trims to a
non-empty string (`options?.filterExpr && options.filterExpr.trim().length > 0`);
otherwise it is left unset. -/
def filterField (filterExpr : Option String) : Option String :=
  match filterExpr with
  | some s => if s.trim = "" then none else some s
  | none => none

/-- The request `MilvusRestfulVectorDatabase.search` issues (lines 423-458).
`topK` defaults through JS falsiness (`options?.topK || 10`); the `threshold`
member of `SearchOptions` is read nowhere in the builder. -/
def milvusSearchRequest (collectionName : String) (dbName : Option String)
    (queryVector : List ℚ) (options : SearchOptions) : MilvusSearchRequest :=
  { collectionName := collectionName
    dbName := dbName
    data := [queryVector]
    annsField := "vector"
    limit := jsOrNat options.topK 10
    outputFields :=
      ["content", "relativePath", "startLine", "endLine", "fileExtension", "metadata"]
    searchParams := { metricType := "COSINE", params := [] }
    filter := filterField options.filterExpr }

/-- One channel block of the `entities/hybrid_search` payload. -/
structure MilvusHybridChannel where
  data : List SearchData
  annsField : String
  limit : ℕ
  outputFields : List String
  metricType : String
  params : List (String × ℚ)
  filter : Option String
deriving Repr, DecidableEq

/-- The `entities/hybrid_search` payload. -/
structure MilvusHybridRequest where
  collectionName : String
  dbName : Option String
  search : List MilvusHybridChannel
  rerank : RerankStrategy
  limit : ℕ
  outputFields : List String
deriving Repr, DecidableEq

/-- `HybridSearchOptions` as received by the Milvus adapter. -/
structure MilvusHybridOptions where
  rerank : Option RerankStrategy
  limit : ℕ
  filterExpr : Option String
deriving Repr, DecidableEq

/-- The request `MilvusRestfulVectorDatabase.hybridSearch` issues
(lines 756-818): channel 1 with COSINE metric from `searchRequests[0]`,
channel 2 with BM25 metric from `searchRequests[1]`; the rerank block is the
hardcoded `{ strategy: "rrf", params: { k: 100 } }` — `options.rerank` is
never consulted.  (The JS array-wrapping ternaries on each channel's `data`
collapse under the typed `SearchData` payload.) -/
def milvusHybridRequest (collectionName : String) (dbName : Option String)
    (r1 r2 : HybridSearchRequest) (options : MilvusHybridOptions) :
    MilvusHybridRequest :=
  { collectionName := collectionName
    dbName := dbName
    search :=
      [ { data := [r1.data]
          annsField := r1.anns_field
          limit := r1.limit
          outputFields := ["*"]
          metricType := "COSINE"
          params := r1.param
          filter := filterField options.filterExpr }
      , { data := [r2.data]
          annsField := r2.anns_field
          limit := r2.limit
          outputFields := ["*"]
          metricType := "BM25"
          params := r2.param
          filter := filterField options.filterExpr } ]
    rerank := { strategy := "rrf", k := 100 }
    limit := jsOrNat options.limit (jsOrNat r1.limit 10)
    outputFields :=
      ["id", "content", "relativePath", "startLine", "endLine", "fileExtension",
       "metadata"] }

/-! ## Reciprocal Rank Fusion (spec §4.3)

The fusion itself executes server-side in the store's
`entities/hybrid_search` endpoint — the repository only sends
`rerank: { strategy: "rrf", params: { k: 100 } }` — so the scoring function is
modelled from the spec and checked against the spec's worked fixture. -/

/-- Modelled from the spec: the contribution of one channel to a document's
fused score — `1 / (k + rank)` with `rank` the 1-based position in that
channel's list, `0` when the channel lacks the document.  The fusion runs
server-side (Milvus) and is not part of this repository's code. -/
def rrfContribution (k : ℚ) (channel : List String) (doc : String) : ℚ :=
  match channel.findIdx? (fun d => d == doc) with
  | some i => 1 / (k + ((i : ℚ) + 1))
  | none => 0

/-- Modelled from the spec: `fused_score = Σ over channels containing the
document of 1 / (k + rank)`. -/
def rrfScore (k : ℚ) (channels : List (List String)) (doc : String) : ℚ :=
  (channels.map (fun ch => rrfContribution k ch doc)).sum

/-- Modelled from the spec: the candidate set is the union of the channels'
results in store-returned order (first occurrence kept). -/
def rrfCandidates (channels : List (List String)) : List String :=
  (channels.foldr (· ++ ·) []).foldl
    (fun acc x => if acc.contains x then acc else acc ++ [x]) []

/-- Stable descending insertion for the fused ranking: a document moves ahead
only of strictly lower-scored ones, so ties keep store order. -/
def rrfInsert (score : String → ℚ) (d : String) : List String → List String
  | [] => [d]
  | x :: xs => if score x < score d then d :: x :: xs else x :: rrfInsert score d xs

/-- Stable descending sort by fused score. -/
def rrfSortDesc (score : String → ℚ) : List String → List String
  | [] => []
  | x :: xs => rrfInsert score x (rrfSortDesc score xs)

/-- Modelled from the spec: the final fused ranking — candidates sorted by
fused score descending, ties broken by store order. -/
def rrfRank (k : ℚ) (channels : List (List String)) : List String :=
  rrfSortDesc (rrfScore k channels) (rrfCandidates channels)

/-! ## Claim C2 -/

/-- C2: every issued hybrid request carries RRF with `k = 100` — both in the
options the orchestrator passes (`hybridOptionsOf`) and in the wire payload
the Milvus adapter builds (`milvusHybridRequest`, where `k = 100` is
hardcoded) — and the spec's RRF fixture holds: for `k = 1`, channels
`A = [x, y]`, `B = [y, z]`, the fused scores are `x = 1/2`, `y = 5/6`,
`z = 1/3` (whose three-decimal truncations are the claim's `0.5`, `0.833`,
`0.333`), and the fused order is `y, x, z`. -/
theorem hybrid_rrf_k100_and_fixture :
    (∀ (topK : ℕ) (filterExpr : Option String),
      (hybridOptionsOf topK filterExpr).rerank = ⟨"rrf", 100⟩) ∧
    (∀ (cn : String) (db : Option String) (r1 r2 : HybridSearchRequest)
      (options : MilvusHybridOptions),
      (milvusHybridRequest cn db r1 r2 options).rerank = ⟨"rrf", 100⟩) ∧
    rrfScore 1 [["x", "y"], ["y", "z"]] "x" = 1/2 ∧
    rrfScore 1 [["x", "y"], ["y", "z"]] "y" = 5/6 ∧
    rrfScore 1 [["x", "y"], ["y", "z"]] "z" = 1/3 ∧
    ⌊(1000 : ℚ) * rrfScore 1 [["x", "y"], ["y", "z"]] "x"⌋ = 500 ∧
    ⌊(1000 : ℚ) * rrfScore 1 [["x", "y"], ["y", "z"]] "y"⌋ = 833 ∧
    ⌊(1000 : ℚ) * rrfScore 1 [["x", "y"], ["y", "z"]] "z"⌋ = 333 ∧
    rrfRank 1 [["x", "y"], ["y", "z"]] = ["y", "x", "z"] := by
  have hx : rrfScore 1 [["x", "y"], ["y", "z"]] "x" = 1/2 := by
    simp +decide [rrfScore, rrfContribution, List.findIdx?]; norm_num
  have hy : rrfScore 1 [["x", "y"], ["y", "z"]] "y" = 5/6 := by
    simp +decide [rrfScore, rrfContribution, List.findIdx?]; norm_num
  have hz : rrfScore 1 [["x", "y"], ["y", "z"]] "z" = 1/3 := by
    simp +decide [rrfScore, rrfContribution, List.findIdx?]; norm_num
  refine ⟨fun _ _ => rfl, fun _ _ _ _ _ => rfl, hx, hy, hz,
    by rw [hx]; norm_num, by rw [hy]; norm_num, by rw [hz]; norm_num, ?_⟩
  simp +decide [rrfRank, rrfCandidates, rrfSortDesc, rrfInsert, rrfScore,
    rrfContribution, List.findIdx?]; norm_num

/-! ## Claim C7 -/

/-- C7 (amended): in non-hybrid mode the `threshold` argument of
`semanticSearch` is forwarded to the store adapter inside the `SearchOptions`
record, and the orchestrator performs no local re-filtering — the returned
list is exactly the adapter's result list mapped to the public shape.
However, the Milvus REST adapter's issued wire request does not contain the
threshold: the payload is invariant under changing it. -/
theorem threshold_forwarded_to_adapter_only
    (ctx : SearchContextModel) (env : SearchEnv) (query : String)
    (topK : ℕ) (threshold : ℚ) (filterExpr : Option String)
    (emb : EmbeddingVector) (rs : List VectorSearchResult)
    (hmode : ctx.hybridMode = false)
    (hhas : env.hasCollection (getCollectionName ctx) = .ok true)
    (hemb : env.embed query = .ok emb)
    (hsearch : env.search (getCollectionName ctx) emb.vector
      { topK := topK, threshold := threshold, filterExpr := filterExpr } = .ok rs) :
    (semanticSearch ctx env query topK threshold filterExpr).1 =
      .ok (rs.map toSemanticResult) ∧
    (∀ (cn : String) (db : Option String) (v : List ℚ) (o : SearchOptions) (t : ℚ),
      milvusSearchRequest cn db v { o with threshold := t } =
        milvusSearchRequest cn db v o) := by
  constructor
  · simp [semanticSearch, semanticSearchBody, hmode, hhas, hemb, hsearch]
  · intro cn db v o t
    rfl

/-- Witness for C7's amended theorem at a concrete environment. -/
theorem threshold_forwarded_to_adapter_only_witness :
    (semanticSearch ⟨"proj", false⟩
      ⟨fun _ => .ok true, fun _ => .ok [], fun _ => .ok ⟨[1], 1⟩,
        fun _ _ _ => .ok [], fun _ _ _ => .ok []⟩
      "q" 5 (1/2) none).1 = .ok [] :=
  (threshold_forwarded_to_adapter_only ⟨"proj", false⟩
    ⟨fun _ => .ok true, fun _ => .ok [], fun _ => .ok ⟨[1], 1⟩,
      fun _ _ _ => .ok [], fun _ _ _ => .ok []⟩
    "q" 5 (1/2) none ⟨[1], 1⟩ [] rfl rfl rfl rfl).1

/-- C7 counterexample: the claim as stated says the threshold is part of the
issued search request; but two different thresholds (`1/2` and `9/10`)
produce identical wire payloads, so the issued request does not carry the
threshold at all. -/
theorem milvus_search_request_drops_threshold :
    milvusSearchRequest "code_chunks_proj" none [1]
        { topK := 5, threshold := 1/2, filterExpr := none } =
      milvusSearchRequest "code_chunks_proj" none [1]
        { topK := 5, threshold := 9/10, filterExpr := none } ∧
    ({ topK := 5, threshold := 1/2, filterExpr := none } : SearchOptions) ≠
      { topK := 5, threshold := 9/10, filterExpr := none } := by
  refine ⟨rfl, ?_⟩
  intro h
  have := congrArg SearchOptions.threshold h
  norm_num at this

/-! ## MilvusRestfulVectorDatabase: result mapping
(src/unnamed/part_003, `search` result mapping at lines 465-491,
`hybridSearch` result mapping at lines 838-853, `insert` at lines 380-413) -/

/-- A raw item of the store's search/hybrid-search response
(`MilvusSearchResultItem`): every field may be absent.  The metadata blob has
an abstract type `B` standing for the serialized JSON string; `parse`
(mirroring `JSON.parse`) may fail on it. -/
structure MilvusItem (B : Type) where
  id : Option String
  distance : Option ℚ
  score : Option ℚ
  content : Option String
  relativePath : Option String
  startLine : Option ℤ
  endLine : Option ℤ
  fileExtension : Option String
  metadata : Option B
deriving Repr, DecidableEq

/-- A row of the `entities/insert` payload: `metadata` is the serialized blob
`JSON.stringify(doc.metadata)`. -/
structure MilvusInsertRow (B : Type) where
  id : String
  vector : List ℚ
  content : String
  relativePath : String
  startLine : ℤ
  endLine : ℤ
  fileExtension : String
  metadata : B
deriving Repr, DecidableEq

/-- The row `MilvusRestfulVectorDatabase.insert` builds for a document
(lines 388-397): all fields copied, metadata serialized. -/
def milvusInsertRow {B : Type} (stringify : Meta → B) (doc : VectorDocument) :
    MilvusInsertRow B :=
  { id := doc.id
    vector := doc.vector
    content := doc.content
    relativePath := doc.relativePath
    startLine := doc.startLine
    endLine := doc.endLine
    fileExtension := doc.fileExtension
    metadata := stringify doc.metadata }

/-- The per-item mapping of `search` results (lines 466-491):
`JSON.parse(item.metadata || "{}")` is wrapped in `try/catch` defaulting to
`{}`, so a parse failure yields the empty map; the document's `vector` field
is set to the caller's `queryVector`, and the score is `item.distance || 0`.
`emptyBlob` is the blob `"{}"` used when the field is absent. -/
def milvusSearchMapItem {B : Type} (parse : B → Option Meta) (emptyBlob : B)
    (queryVector : List ℚ) (item : MilvusItem B) : VectorSearchResult :=
  { document :=
      { id := item.id.getD ""
        vector := queryVector
        content := item.content.getD ""
        relativePath := item.relativePath.getD ""
        startLine := jsOrInt item.startLine 0
        endLine := jsOrInt item.endLine 0
        fileExtension := item.fileExtension.getD ""
        metadata :=
          match parse (item.metadata.getD emptyBlob) with
          | some m => m
          | none => [] }
    score := jsOrQ item.distance 0 }

/-- `results.map` over a response, with the map aborted by the first raised
exception — the semantics of a JS `Array.map` whose callback can `throw`. -/
def mapOrFirstError {A C : Type} (f : A → Except String C) :
    List A → Except String (List C)
  | [] => .ok []
  | x :: xs =>
    match f x with
    | .error e => .error e
    | .ok y =>
      match mapOrFirstError f xs with
      | .error e => .error e
      | .ok ys => .ok (y :: ys)

/-- The per-item mapping of `hybridSearch` results (lines 838-853):
`JSON.parse(result.metadata || "{}")` is NOT guarded here, so a parse failure
raises out of the map; the document's `vector` field is the empty array, and
the score is `result.score || result.distance || 0`. -/
def milvusHybridMapItem {B : Type} (parse : B → Option Meta) (emptyBlob : B)
    (item : MilvusItem B) : Except String HybridSearchResult :=
  match parse (item.metadata.getD emptyBlob) with
  | none => .error "SyntaxError: JSON.parse: unexpected character"
  | some metadata =>
    .ok { document :=
            { id := item.id.getD ""
              content := item.content.getD ""
              vector := []
              relativePath := item.relativePath.getD ""
              startLine := jsOrInt item.startLine 0
              endLine := jsOrInt item.endLine 0
              fileExtension := item.fileExtension.getD ""
              metadata := metadata }
          score := jsOrQ item.score (jsOrQ item.distance 0) }

/-- The whole-response mapping of `hybridSearch`: one unparsable metadata
blob rejects the entire read. -/
def milvusHybridMap {B : Type} (parse : B → Option Meta) (emptyBlob : B)
    (items : List (MilvusItem B)) : Except String (List HybridSearchResult) :=
  mapOrFirstError (milvusHybridMapItem parse emptyBlob) items

/-! ## Claim C5 -/

/-- C5 (amended): a metadata blob serialized at insert parses back to the
same map on both read paths (given the codec's round-trip law, the contract
of `JSON.parse`/`JSON.stringify`); an unparsable blob yields the empty map
without failing the read on the plain `search` path — but on the
`hybridSearch` path (see the counterexample) a parse failure rejects the
read instead. -/
theorem metadata_roundtrip {B : Type} (parse : B → Option Meta)
    (stringify : Meta → B) (emptyBlob : B) (queryVector : List ℚ)
    (doc : VectorDocument) (item : MilvusItem B)
    (hrt : parse (stringify doc.metadata) = some doc.metadata) :
    (milvusSearchMapItem parse emptyBlob queryVector
        { item with metadata := some (milvusInsertRow stringify doc).metadata
        }).document.metadata = doc.metadata ∧
    (∃ r, milvusHybridMapItem parse emptyBlob
        { item with metadata := some (milvusInsertRow stringify doc).metadata
        } = .ok r ∧ r.document.metadata = doc.metadata) ∧
    (∀ blob, parse blob = none →
      (milvusSearchMapItem parse emptyBlob queryVector
        { item with metadata := some blob }).document.metadata = []) := by
  refine ⟨?_, ?_, ?_⟩
  · simp [milvusSearchMapItem, milvusInsertRow, hrt]
  · refine ⟨{ document :=
                { id := item.id.getD "", content := item.content.getD "",
                  vector := [], relativePath := item.relativePath.getD "",
                  startLine := jsOrInt item.startLine 0,
                  endLine := jsOrInt item.endLine 0,
                  fileExtension := item.fileExtension.getD "",
                  metadata := doc.metadata },
              score := jsOrQ item.score (jsOrQ item.distance 0) }, ?_, rfl⟩
    simp [milvusHybridMapItem, milvusInsertRow, hrt]
  · intro blob hblob
    simp [milvusSearchMapItem, hblob]

/-- Witness for C5's amended theorem: a concrete codec (`B` the optional
map itself, `stringify = some`, `parse` the identity) and the concrete
document metadata `{"language": "python"}`. -/
theorem metadata_roundtrip_witness :
    (milvusSearchMapItem (fun b => b) (some []) [1]
        { id := some "d1", distance := some (9/10), score := none,
          content := some "def f", relativePath := some "a.py",
          startLine := some 1, endLine := some 2, fileExtension := some ".py",
          metadata := some (some [("language", "python")]) }).document.metadata
      = [("language", "python")] :=
  (metadata_roundtrip (fun b => b) some (some []) [1]
    { id := "d1", vector := [1], content := "def f", relativePath := "a.py",
      startLine := 1, endLine := 2, fileExtension := ".py",
      metadata := [("language", "python")] }
    { id := some "d1", distance := some (9/10), score := none,
      content := some "def f", relativePath := some "a.py",
      startLine := some 1, endLine := some 2, fileExtension := some ".py",
      metadata := none }
    rfl).1

/-- C5 counterexample: on the `hybridSearch` read path an unparsable metadata
blob does not yield an empty map — it rejects the whole read.  Concretely,
with the codec of the witness and a blob `none` on which `parse` fails, the
hybrid mapping of a one-item response is an error, not a success with `{}`
metadata. -/
theorem metadata_parse_failure_hybrid_raises :
    milvusHybridMap (fun b => b) (some [])
        [{ id := some "d1", distance := some (9/10), score := none,
           content := some "c", relativePath := some "p",
           startLine := some 1, endLine := some 2, fileExtension := some ".ts",
           metadata := some none }]
      = .error "SyntaxError: JSON.parse: unexpected character" ∧
    ∀ rs : List HybridSearchResult,
      milvusHybridMap (fun b => b) (some [])
          [{ id := some "d1", distance := some (9/10), score := none,
             content := some "c", relativePath := some "p",
             startLine := some 1, endLine := some 2, fileExtension := some ".ts",
             metadata := some none }]
        ≠ .ok rs := by
  refine ⟨rfl, ?_⟩
  intro rs h
  simp [milvusHybridMap, mapOrFirstError, milvusHybridMapItem] at h

/-! ## Claim C10 -/

/-- C10: the read path never returns a stored vector: every `search` result's
document carries the caller's query vector, and every `hybridSearch` result's
document carries the empty array. -/
theorem read_vector_never_stored {B : Type} (parse : B → Option Meta)
    (emptyBlob : B) (queryVector : List ℚ) (item : MilvusItem B)
    (r : HybridSearchResult)
    (h : milvusHybridMapItem parse emptyBlob item = .ok r) :
    (milvusSearchMapItem parse emptyBlob queryVector item).document.vector =
      queryVector ∧
    r.document.vector = [] := by
  refine ⟨rfl, ?_⟩
  unfold milvusHybridMapItem at h
  split at h
  · exact absurd h (by simp)
  · cases h
    rfl

/-- Witness for C10 at a concrete item whose hybrid mapping succeeds. -/
theorem read_vector_never_stored_witness :
    (milvusSearchMapItem (fun b => b) (some []) [1, 2]
        { id := some "d1", distance := some (9/10), score := some (4/5),
          content := some "c", relativePath := some "p",
          startLine := some 1, endLine := some 2, fileExtension := some ".ts",
          metadata := some (some []) }).document.vector = [1, 2] ∧
    ({ document :=
        { id := "d1", content := "c", vector := [], relativePath := "p",
          startLine := 1, endLine := 2, fileExtension := ".ts",
          metadata := [] }
       score := 4/5 } : HybridSearchResult).document.vector = [] :=
  read_vector_never_stored (fun b => b) (some []) [1, 2]
    { id := some "d1", distance := some (9/10), score := some (4/5),
      content := some "c", relativePath := some "p",
      startLine := some 1, endLine := some 2, fileExtension := some ".ts",
      metadata := some (some []) }
    { document :=
        { id := "d1", content := "c", vector := [], relativePath := "p",
          startLine := 1, endLine := 2, fileExtension := ".ts",
          metadata := [] }
      score := 4/5 }
    (by simp [milvusHybridMapItem, jsOrQ, jsOrInt])

/-! ## Embedding providers
(src/packages/ai-deno-search/src/embedding/openai.ts; Ollama provider in
src/unnamed/part_002 lines 365-570; VoyageAI provider in src/unnamed/part_001) -/

/-- `OpenAIEmbedding.getSupportedModels()` (openai.ts lines 160-180): the
static per-model dimension table. -/
def openAIModelTable (model : String) : Option ℕ :=
  if model = "text-embedding-3-small" then some 1536
  else if model = "text-embedding-3-large" then some 3072
  else if model = "text-embedding-ada-002" then some 1536
  else none

/-- `OpenAIEmbedding.detectDimension` (openai.ts lines 25-60): resolve the
model name through JS falsiness, consult the static table (no remote call);
otherwise issue one probe embedding and return its length.  The method reads
and writes no instance state, so nothing is memoized here; `probeLen` is the
length of the remote probe's response vector.  Returns
`(number of remote probe calls issued, resulting dimension)`. -/
def openAIDetectDimension (model : String) (probeLen : ℕ) : ℕ × ℕ :=
  let m := jsOrStr (some model) "text-embedding-3-small"
  match openAIModelTable m with
  | some d => (0, d)
  | none => (1, probeLen)

/-- JS truthiness of the optional configured dimension
(`this.config.dimension`): `undefined` and `0` are falsy. -/
def jsTruthyNat (a : Option ℕ) : Bool :=
  match a with
  | none => false
  | some n => !(n == 0)

/-- The mutable dimension state of an `OllamaEmbedding` instance. -/
structure OllamaState where
  configDimension : Option ℕ
  dimension : ℕ
  dimensionDetected : Bool
deriving Repr, DecidableEq

/-- `OllamaEmbedding.detectDimension` (part_002 lines 532-569): always issues
one probe embedding and returns its length; the instance state is not
touched (in particular `dimensionDetected` is neither read nor set). -/
def ollamaDetectDimension (st : OllamaState) (probeLen : ℕ) :
    ℕ × ℕ × OllamaState :=
  (1, probeLen, st)

/-- The dimension-detection preamble of `OllamaEmbedding.embed` /
`embedBatch` (part_002 lines 415-424 and 448-457): when `dimensionDetected`
is false and no dimension was configured, call `detectDimension` (one probe)
and set the memo flag; otherwise issue nothing.  Returns
`(probe calls issued, state afterwards)`. -/
def ollamaEmbedDimensionStep (st : OllamaState) (probeLen : ℕ) : ℕ × OllamaState :=
  if !st.dimensionDetected && !jsTruthyNat st.configDimension then
    ((ollamaDetectDimension st probeLen).1,
     { st with dimension := probeLen, dimensionDetected := true })
  else
    (0, st)

/-- Total probe calls across two successive `embed` invocations with an
unchanged model. -/
def ollamaTwoEmbedProbeCount (st : OllamaState) (p1 p2 : ℕ) : ℕ :=
  (ollamaEmbedDimensionStep st p1).1 +
    (ollamaEmbedDimensionStep (ollamaEmbedDimensionStep st p1).2 p2).1

/-! ## Claim C4 -/

/-- C4 counterexample: `OpenAIEmbedding.detectDimension` memoizes nothing —
for a model outside the static table (here `"custom-model"`) each call issues
one remote probe, so two successive calls on the same instance with an
unchanged model issue 2 probe calls, not at most 1 as claimed. -/
theorem detectDimension_not_memoized :
    (openAIDetectDimension "custom-model" 768).1 +
        (openAIDetectDimension "custom-model" 768).1 = 2 ∧
    ¬ ((openAIDetectDimension "custom-model" 768).1 +
        (openAIDetectDimension "custom-model" 768).1 ≤ 1) := by
  constructor
  · rfl
  · intro h
    simp [openAIDetectDimension, openAIModelTable, jsOrStr] at h

/-- C4 (amended): a provider whose model is in its static lookup table issues
zero remote probe calls from `detectDimension`; for a model outside the table
every single `detectDimension()` call issues exactly one probe (the result is
not memoized by `detectDimension` itself); the at-most-one-probe memoization
holds on the `embed`/`embedBatch` path, whose dimension-detection preamble
issues at most one probe across two successive invocations with an unchanged
model (the `dimensionDetected` flag). -/
theorem dimension_probe_calls (model : String) (probeLen : ℕ)
    (st : OllamaState) (p1 p2 : ℕ)
    (hmodel : openAIModelTable (jsOrStr (some model) "text-embedding-3-small")
      = none) :
    (openAIDetectDimension "text-embedding-3-small" probeLen).1 = 0 ∧
    (openAIDetectDimension "text-embedding-3-large" probeLen).1 = 0 ∧
    (openAIDetectDimension "text-embedding-ada-002" probeLen).1 = 0 ∧
    (openAIDetectDimension model probeLen).1 = 1 ∧
    ollamaTwoEmbedProbeCount st p1 p2 ≤ 1 := by
  refine ⟨rfl, rfl, rfl, ?_, ?_⟩
  · simp [openAIDetectDimension, hmodel]
  · unfold ollamaTwoEmbedProbeCount ollamaEmbedDimensionStep ollamaDetectDimension
    by_cases h : (!st.dimensionDetected && !jsTruthyNat st.configDimension) = true
    · simp [h]
    · simp [h]

/-- Witness for C4's amended theorem at a concrete non-table model and a
fresh Ollama instance state. -/
theorem dimension_probe_calls_witness :
    (openAIDetectDimension "custom-model" 768).1 = 1 ∧
    ollamaTwoEmbedProbeCount ⟨none, 768, false⟩ 384 384 ≤ 1 :=
  ⟨(dimension_probe_calls "custom-model" 768 ⟨none, 768, false⟩ 384 384
      rfl).2.2.2.1,
   (dimension_probe_calls "custom-model" 768 ⟨none, 768, false⟩ 384 384
      rfl).2.2.2.2⟩

/-! ## embedBatch (openai.ts lines 94-126; VoyageAI in part_001 lines 67-90) -/

/-- `OpenAIEmbedding.embedBatch`: pre-process all inputs, issue one batch
call, stamp `this.dimension` (taken from the first response item) on every
element of the mapped result.  The remote API is modelled by `api`, giving
the response embedding for each (pre-processed) input, one item per input in
order — the provider wire contract.  The dimension-detection preamble for
unknown models (openai.ts lines 98-103) touches only `this.dimension` and is
elided: it affects no returned vector.  `preprocessTexts` lives in the base
class (not under `src/`); per the spec it maps the per-text normalization
over the list, so it is the parameter `pre` mapped below. -/
def openAIEmbedBatch (pre : String → String) (api : String → List ℚ)
    (texts : List String) : List EmbeddingVector :=
  let processedTexts := texts.map pre
  let data := processedTexts.map api
  let dimension := (data.headD []).length
  data.map (fun v => { vector := v, dimension := dimension })

/-- `VoyageAIEmbedding.embedBatch`: pre-process, one batch call, then map
the response items, raising on any item without an embedding (`api` returns
`none` for such an item); `dimension` is the instance's cached dimension. -/
def voyageEmbedBatch (pre : String → String) (api : String → Option (List ℚ))
    (dimension : ℕ) (texts : List String) : Except String (List EmbeddingVector) :=
  mapOrFirstError
    (fun t =>
      match api t with
      | none => .error "VoyageAI API returned invalid embedding data"
      | some v => .ok { vector := v, dimension := dimension })
    (texts.map pre)

/-! ## Claim C6 -/

/-- C6: `embedBatch` preserves length and positional correspondence.  For
the OpenAI provider the result has one element per input text and element
`i`'s vector is the remote embedding of the pre-processed `texts[i]`; for
the VoyageAI provider, when every response item carries an embedding the
result is exactly the in-order embedding of each pre-processed input. -/
theorem embedBatch_positional :
    (∀ (pre : String → String) (api : String → List ℚ) (texts : List String),
      (openAIEmbedBatch pre api texts).length = texts.length) ∧
    (∀ (pre : String → String) (api : String → List ℚ) (texts : List String)
      (i : ℕ),
      ((openAIEmbedBatch pre api texts)[i]?).map EmbeddingVector.vector =
        (texts[i]?).map (fun t => api (pre t))) ∧
    (∀ (pre : String → String) (f : String → List ℚ) (dimension : ℕ)
      (texts : List String),
      voyageEmbedBatch pre (fun t => some (f t)) dimension texts =
        .ok (texts.map (fun t => { vector := f (pre t), dimension := dimension }))) := by
  refine ⟨?_, ?_, ?_⟩
  · intro pre api texts
    simp [openAIEmbedBatch]
  · intro pre api texts i
    simp only [openAIEmbedBatch, List.getElem?_map]
    cases texts[i]? <;> rfl
  · intro pre f dimension texts
    induction texts with
    | nil => rfl
    | cons t ts ih =>
      simp only [voyageEmbedBatch, List.map_cons, mapOrFirstError] at ih ⊢
      rw [ih]

/-! ## Claim C8 -/

/-- C8 (amended): failures of `hasCollection`, of the embedding provider,
and of the store's `search`/`hybridSearch` all propagate unchanged out of
`semanticSearch` — each conjunct assumes only the calls that precede the
failing one succeeding, so each propagation case is reachable; the
missing-collection case is mapped to an empty success (claim C1's theorem);
but contrary to the claim as stated, the orchestrator additionally swallows
every failure of the preliminary collection-stats `query` it issues in
hybrid mode — the outcome is entirely independent of that oracle
(last conjunct). -/
theorem error_propagation
    (ctx : SearchContextModel) (env : SearchEnv) (query : String)
    (topK : ℕ) (threshold : ℚ) (filterExpr : Option String) (e : String) :
    (env.hasCollection (getCollectionName ctx) = .error e →
      (semanticSearch ctx env query topK threshold filterExpr).1 = .error e) ∧
    (env.hasCollection (getCollectionName ctx) = .ok true →
      env.embed query = .error e →
      (semanticSearch ctx env query topK threshold filterExpr).1 = .error e) ∧
    (∀ emb, ctx.hybridMode = true →
      env.hasCollection (getCollectionName ctx) = .ok true →
      env.embed query = .ok emb →
      env.hybridSearch (getCollectionName ctx)
          (hybridRequests emb.vector query topK)
          (hybridOptionsOf topK filterExpr) = .error e →
      (semanticSearch ctx env query topK threshold filterExpr).1 = .error e) ∧
    (∀ emb, ctx.hybridMode = false →
      env.hasCollection (getCollectionName ctx) = .ok true →
      env.embed query = .ok emb →
      env.search (getCollectionName ctx) emb.vector
          { topK := topK, threshold := threshold, filterExpr := filterExpr }
        = .error e →
      (semanticSearch ctx env query topK threshold filterExpr).1 = .error e) ∧
    (∀ f g : String → Except String (List Meta),
      semanticSearch ctx { env with queryStats := f } query topK threshold
          filterExpr =
        semanticSearch ctx { env with queryStats := g } query topK threshold
          filterExpr) := by
  refine ⟨?_, ?_, ?_, ?_, ?_⟩
  · intro hhas
    simp [semanticSearch, semanticSearchBody, hhas]
  · intro hhas hemb
    cases hmode : ctx.hybridMode <;>
      simp [semanticSearch, semanticSearchBody, hhas, hemb, hmode]
  · intro emb hmode hhas hemb hhs
    simp [semanticSearch, semanticSearchBody, hhas, hemb, hmode, hhs]
  · intro emb hmode hhas hemb hs
    simp [semanticSearch, semanticSearchBody, hhas, hemb, hmode, hs]
  · intro f g
    rfl

/-- Witness for C8's amended theorem at concrete environments: a
`hasCollection` failure propagates unchanged (first conjunct), and an
embedding failure propagates unchanged (second conjunct). -/
theorem error_propagation_witness :
    (semanticSearch ⟨"proj", true⟩
      ⟨fun _ => .error "has down", fun _ => .ok [], fun _ => .ok ⟨[1], 1⟩,
        fun _ _ _ => .ok [], fun _ _ _ => .ok []⟩
      "q" 5 (1/2) none).1 = .error "has down" ∧
    (semanticSearch ⟨"proj", true⟩
      ⟨fun _ => .ok true, fun _ => .ok [], fun _ => .error "embed down",
        fun _ _ _ => .ok [], fun _ _ _ => .ok []⟩
      "q" 5 (1/2) none).1 = .error "embed down" :=
  ⟨(error_propagation ⟨"proj", true⟩
      ⟨fun _ => .error "has down", fun _ => .ok [], fun _ => .ok ⟨[1], 1⟩,
        fun _ _ _ => .ok [], fun _ _ _ => .ok []⟩
      "q" 5 (1/2) none "has down").1 rfl,
   (error_propagation ⟨"proj", true⟩
      ⟨fun _ => .ok true, fun _ => .ok [], fun _ => .error "embed down",
        fun _ _ _ => .ok [], fun _ _ _ => .ok []⟩
      "q" 5 (1/2) none "embed down").2.1 rfl rfl⟩

/-- The concrete environment of C8's counterexample: the collection exists,
the collection-stats query fails with `"boom"`, everything else succeeds. -/
def statsFailEnv : SearchEnv :=
  { hasCollection := fun _ => .ok true
    queryStats := fun _ => .error "boom"
    embed := fun _ => .ok ⟨[1], 1⟩
    hybridSearch := fun _ _ _ => .ok []
    search := fun _ _ _ => .ok [] }

/-- C8 counterexample: in hybrid mode the preliminary collection-stats
`query` fails with `"boom"`, a vector-store failure that is not the
missing-collection case — yet `semanticSearch` succeeds instead of
propagating it, refuting "every other failure propagates unchanged to the
caller". -/
theorem orchestrator_swallows_stats_error :
    statsFailEnv.queryStats (getCollectionName ⟨"proj", true⟩) = .error "boom" ∧
    (semanticSearch ⟨"proj", true⟩ statsFailEnv "q" 5 (1/2) none).1 = .ok [] ∧
    (semanticSearch ⟨"proj", true⟩ statsFailEnv "q" 5 (1/2) none).1 ≠
      .error "boom" := by
  refine ⟨rfl, rfl, ?_⟩
  intro h
  simp [semanticSearch, semanticSearchBody, statsFailEnv] at h
